import Mathlib

/-!
Verification of the `networkchange` binding of lima-vm/lima.

The repository fragment under study is the single header
`pkg/vmnet/networkchange/networkchange_darwin.h`, whose only declaration is

  uint32_t notifyRegisterDispatch(int *out_token, uintptr_t handler);

a thin binding to Darwin's `notify_register_dispatch`.  This file embeds

* the C declaration itself, as data (`CType`, `CFunDecl`,
  `notifyRegisterDispatch_decl`, `headerOwnDecls`), translated from the
  header source;
* the behaviour of the binding, which the header only declares.  The
  implementation body is not part of the supplied sources, so it is
  modelled from the specification: a single synchronous pass-through to a
  platform oracle (`Platform`), writing the platform's token to the
  caller's out-slot and returning the platform's status unchanged
  (`bindingActions`, `notifyRegisterDispatch`);
* the platform's notification-centre life cycle needed for the temporal
  deregistration property (`NCState`, `Step`, `Trace`), also modelled from
  the specification since the Darwin `notify` subsystem is closed source.

Machine integers are modelled as `Nat`/`Int` with explicit bounds where the
C types impose them (`uint32_t` status values are below `2 ^ 32`, `int`
tokens lie in the signed 32-bit range).
-/

namespace NetworkChange

/-! ## The C declaration, embedded as data -/

/-- The C types appearing in the header's declaration. -/
inductive CType where
  | cInt : CType
  | cUInt32 : CType
  | cUIntPtr : CType
  | cPtr : CType → CType
  deriving DecidableEq, Repr

/-- A C function declaration: name, return type, parameter types. -/
structure CFunDecl where
  name : String
  ret : CType
  params : List CType
  deriving DecidableEq, Repr

/-- The declaration on line 11 of `networkchange_darwin.h`:
`uint32_t notifyRegisterDispatch(int *out_token, uintptr_t handler);`. -/
def notifyRegisterDispatch_decl : CFunDecl :=
  { name := "notifyRegisterDispatch"
    ret := CType.cUInt32
    params := [CType.cPtr CType.cInt, CType.cUIntPtr] }

/-- Every declaration the header makes of its own.  The header consists of a
licence comment, `#pragma once`, two `#import`s of platform headers (which
bring in the platform's declarations, not this repository's), a mark
comment, and the single function declaration. -/
def headerOwnDecls : List CFunDecl :=
  [notifyRegisterDispatch_decl]

/-! ## Semantic model of the binding -/

/-- An address of a caller-owned `int` slot (the `int *out_token`
argument). -/
abbrev Addr := Nat

/-- The caller-visible mutable state: an assignment of an integer value to
every address.  The binding receives the out-slot's address into this
store. -/
abbrev Store := Addr → Int

/-- Modelled from the spec: the closed-source Darwin `notify` subsystem
behind `notify_register_dispatch`, which the supplied sources do not
contain.  It is an oracle mapping a handler bit pattern (`uintptr_t`) to a
status (`uint32_t`, hence below `2 ^ 32`) and a registration token (C
`int`, hence in the signed 32-bit range), together with the platform's own
notion of which handlers are valid; on a valid handler the platform
reports the successful status `0` (`NOTIFY_STATUS_OK`). -/
structure Platform where
  register : Nat → Nat × Int
  status_lt : ∀ h : Nat, (register h).1 < 2 ^ 32
  token_lb : ∀ h : Nat, -(2 ^ 31) ≤ (register h).2
  token_ub : ∀ h : Nat, (register h).2 < 2 ^ 31
  validHandler : Nat → Bool
  valid_ok : ∀ h : Nat, validHandler h = true → (register h).1 = 0

/-- The primitive actions an execution of the binding could perform.
Constructors for locking and for invoking or dereferencing the handler are
included so that their absence from the binding's action list is a
meaningful statement. -/
inductive Action where
  | platformCall : Nat → Action
  | storeWrite : Addr → Int → Action
  | lockAcquire : Action
  | lockRelease : Action
  | handlerInvoke : Nat → Action
  | handlerDeref : Nat → Action
  deriving DecidableEq, Repr

/-- Whether an action is the synchronous platform call. -/
def isPlatformCall : Action → Bool
  | Action.platformCall _ => true
  | _ => false

/-- Whether an action is a concurrency primitive (lock acquire/release). -/
def isLockAction : Action → Bool
  | Action.lockAcquire => true
  | Action.lockRelease => true
  | _ => false

/-- Whether an action invokes or dereferences the handler itself. -/
def touchesHandler : Action → Bool
  | Action.handlerInvoke _ => true
  | Action.handlerDeref _ => true
  | _ => false

/-- The effect of one action on the caller-visible store: only a store
write changes it. -/
def runAction (σ : Store) (a : Action) : Store :=
  match a with
  | Action.storeWrite addr v => Function.update σ addr v
  | _ => σ

/-- The effect of a list of actions on the store, in order. -/
def runActions (σ : Store) (l : List Action) : Store :=
  l.foldl runAction σ

/-- Modelled from the spec: the action sequence of the binding's
implementation body, which the supplied sources do not contain.  Per the
spec the binding performs a single synchronous platform call and then
returns, writing the platform's token through the caller's out-slot; it
validates nothing, translates nothing, and takes no locks. -/
def bindingActions (p : Platform) (out_token : Addr) (handler : Nat) : List Action :=
  [Action.platformCall handler,
   Action.storeWrite out_token (p.register handler).2]

/-- Modelled from the spec: the behaviour of `notifyRegisterDispatch`,
whose body is not in the supplied sources.  It runs the binding's action
sequence on the caller-visible store and returns the platform's status
unchanged. -/
def notifyRegisterDispatch (p : Platform) (out_token : Addr) (handler : Nat)
    (σ : Store) : Nat × Store :=
  ((p.register handler).1, runActions σ (bindingActions p out_token handler))

/-- Modelled from the spec: calling the platform registration API
directly, with no binding in between — the platform's status is the
result and the platform's token lands in the out-slot.  This is the
specification-side description against which the binding is compared. -/
def directPlatformCall (p : Platform) (out_token : Addr) (handler : Nat)
    (σ : Store) : Nat × Store :=
  ((p.register handler).1, Function.update σ out_token (p.register handler).2)

/-- A concrete platform oracle used to witness theorems: every handler is
valid, registration always succeeds with status `0` and token `7`. -/
def okPlatform : Platform where
  register := fun _ => (0, 7)
  status_lt := fun _ => by norm_num
  token_lb := fun _ => by norm_num
  token_ub := fun _ => by norm_num
  validHandler := fun _ => true
  valid_ok := fun _ _ => rfl

/-! ## Platform life cycle for the deregistration property -/

/-- Modelled from the spec: the state of the operating system's
notification centre, which the supplied sources do not contain.  Tokens
are issued from a fresh counter (`nextToken`), so a token identifies a
single registration; `registered` lists the live registrations as
token–handler pairs. -/
structure NCState where
  nextToken : Nat
  registered : List (Nat × Nat)
  deriving DecidableEq, Repr

/-- The empty notification centre, before any registration. -/
def NCState.start : NCState :=
  { nextToken := 0, registered := [] }

/-- The observable events of the notification-centre life cycle:
a registration returning a fresh token, a deregistration using a token,
and a notification firing, delivered to exactly the registered tokens. -/
inductive Event where
  | register : Nat → Nat → Event
  | deregister : Nat → Event
  | deliver : List Nat → Event
  deriving DecidableEq, Repr

/-- Modelled from the spec: one step of the notification centre.
Registration hands out the fresh token and records the handler;
deregistration with a live token removes that registration; a firing
notification is delivered to precisely the tokens registered at that
moment. -/
inductive Step : NCState → Event → NCState → Prop where
  | register (s : NCState) (h : Nat) :
      Step s (Event.register s.nextToken h)
        { nextToken := s.nextToken + 1
          registered := (s.nextToken, h) :: s.registered }
  | deregister (s : NCState) (t : Nat)
      (hmem : t ∈ s.registered.map Prod.fst) :
      Step s (Event.deregister t)
        { nextToken := s.nextToken
          registered := s.registered.filter (fun q => !(q.1 == t)) }
  | deliver (s : NCState) :
      Step s (Event.deliver (s.registered.map Prod.fst)) s

/-- A finite execution trace of the notification centre: the list of
events leading from one state to another. -/
inductive Trace : NCState → List Event → NCState → Prop where
  | nil (s : NCState) : Trace s [] s
  | cons {s₁ s₂ s₃ : NCState} {e : Event} {es : List Event} :
      Step s₁ e s₂ → Trace s₂ es s₃ → Trace s₁ (e :: es) s₃

/-- Well-formedness of a notification-centre state: every live token was
issued before the fresh counter. -/
def NCWf (s : NCState) : Prop :=
  ∀ q ∈ s.registered, q.1 < s.nextToken

theorem step_wf {s s' : NCState} {e : Event} (hs : Step s e s') (hw : NCWf s) :
    NCWf s' := by
  cases hs with
  | register h =>
      intro q hq
      rcases List.mem_cons.mp hq with hq | hq
      · simp [hq]
      · exact Nat.lt_succ_of_lt (hw q hq)
  | deregister t hmem =>
      intro q hq
      exact hw q (List.mem_of_mem_filter hq)
  | deliver =>
      exact hw

theorem step_nextToken_mono {s s' : NCState} {e : Event} (hs : Step s e s') :
    s.nextToken ≤ s'.nextToken := by
  cases hs with
  | register h => exact Nat.le_succ _
  | deregister t hmem => exact Nat.le_refl _
  | deliver => exact Nat.le_refl _

/-- Once a token is dead (absent from the registrations) and stale
(below the fresh counter), one step keeps it dead and stale. -/
theorem step_dead_token {s s' : NCState} {e : Event} {t : Nat}
    (hs : Step s e s')
    (habs : t ∉ s.registered.map Prod.fst) (hlt : t < s.nextToken) :
    t ∉ s'.registered.map Prod.fst ∧ t < s'.nextToken := by
  cases hs with
  | register h =>
      refine ⟨?_, Nat.lt_succ_of_lt hlt⟩
      intro hmem
      simp only [List.map_cons, List.mem_cons] at hmem
      rcases hmem with hmem | hmem
      · exact absurd hmem (Nat.ne_of_lt hlt)
      · exact habs hmem
  | deregister u hmem =>
      refine ⟨?_, hlt⟩
      intro hmem'
      rcases List.mem_map.mp hmem' with ⟨q, hq, hqt⟩
      exact habs (List.mem_map.mpr ⟨q, List.mem_of_mem_filter hq, hqt⟩)
  | deliver =>
      exact ⟨habs, hlt⟩

/-- Along any trace, a dead and stale token is never delivered to. -/
theorem trace_dead_token {s s' : NCState} {es : List Event} {t : Nat}
    (htr : Trace s es s')
    (habs : t ∉ s.registered.map Prod.fst) (hlt : t < s.nextToken) :
    ∀ toks : List Nat, Event.deliver toks ∈ es → t ∉ toks := by
  induction htr with
  | nil s =>
      intro toks htoks
      exact absurd htoks (List.not_mem_nil _)
  | cons hstep htail ih =>
      rename_i s₁ s₂ s₃ e es'
      intro toks htoks
      rcases List.mem_cons.mp htoks with heq | hmem
      · cases hstep with
        | register h => exact absurd heq (by simp)
        | deregister u hm => exact absurd heq (by simp)
        | deliver =>
            cases heq
            exact habs
      · have hd := step_dead_token hstep habs hlt
        exact ih hd.1 hd.2 toks hmem

/-- Splitting a trace over an appended event list. -/
theorem trace_append {s s'' : NCState} {es₁ es₂ : List Event}
    (htr : Trace s (es₁ ++ es₂) s'') :
    ∃ s', Trace s es₁ s' ∧ Trace s' es₂ s'' := by
  induction es₁ generalizing s with
  | nil => exact ⟨s, Trace.nil s, htr⟩
  | cons e es ih =>
      cases htr with
      | cons hstep htail =>
          rcases ih htail with ⟨s', h₁, h₂⟩
          exact ⟨s', Trace.cons hstep h₁, h₂⟩

/-- Well-formedness propagates along a trace. -/
theorem trace_wf {s s' : NCState} {es : List Event} (htr : Trace s es s')
    (hw : NCWf s) : NCWf s' := by
  induction htr with
  | nil s => exact hw
  | cons hstep htail ih => exact ih (step_wf hstep hw)

/-! ## The claims -/

/-- Claim C1: for every invocation of `notifyRegisterDispatch` and every
status the platform oracle produces, the value returned to the caller is
exactly the platform's status, non-zero failure statuses included: the
binding propagates it unchanged, with no translation or remapping. -/
theorem c1_status_propagated_unchanged (p : Platform) (a : Addr) (h : Nat)
    (σ : Store) :
    (notifyRegisterDispatch p a h σ).1 = (p.register h).1 :=
  rfl

/-- Claim C2: `notifyRegisterDispatch` is extensionally equal to the direct
platform registration call: for every out-slot, handler and store it
performs no input validation, adds no recovery, and yields the same status
and the same token writeback as calling the platform API directly. -/
theorem c2_equals_direct_platform_call (p : Platform) (a : Addr) (h : Nat)
    (σ : Store) :
    notifyRegisterDispatch p a h σ = directPlatformCall p a h σ :=
  rfl

/-- Claim C3: the declared operation has exactly the spec's interface: an
out-slot for the registration token (a pointer to `int`), a handler
reference (`uintptr_t`), a `uint32_t` platform status as the return value,
and no other parameters. -/
theorem c3_declared_interface :
    notifyRegisterDispatch_decl.name = "notifyRegisterDispatch" ∧
    notifyRegisterDispatch_decl.ret = CType.cUInt32 ∧
    notifyRegisterDispatch_decl.params
      = [CType.cPtr CType.cInt, CType.cUIntPtr] ∧
    notifyRegisterDispatch_decl.params.length = 2 :=
  ⟨rfl, rfl, rfl, rfl⟩

/-- Claim C4: a call with a valid handler returns the successful status
`0` and writes the platform's token to the out-slot; and since the return
type is an unsigned 32-bit integer, every returned status — for any
handler — is non-negative (and below `2 ^ 32`). -/
theorem c4_valid_handler_success (p : Platform) (a : Addr) (h : Nat)
    (σ : Store) (hv : p.validHandler h = true) :
    (notifyRegisterDispatch p a h σ).1 = 0 ∧
    (notifyRegisterDispatch p a h σ).2 a = (p.register h).2 ∧
    ∀ h₂ : Nat, (0 : Int) ≤ ((notifyRegisterDispatch p a h₂ σ).1 : Int) ∧
      (notifyRegisterDispatch p a h₂ σ).1 < 2 ^ 32 := by
  refine ⟨p.valid_ok h hv, ?_, fun h₂ => ⟨Int.natCast_nonneg _, p.status_lt h₂⟩⟩
  show runActions σ (bindingActions p a h) a = (p.register h).2
  simp [runActions, bindingActions, runAction]

/-- Witness for C4 at a concrete platform, slot, handler and store. -/
theorem c4_witness :
    okPlatform.validHandler 3 = true ∧
    ((notifyRegisterDispatch okPlatform 0 3 (fun _ => 0)).1 = 0 ∧
     (notifyRegisterDispatch okPlatform 0 3 (fun _ => 0)).2 0
       = (okPlatform.register 3).2 ∧
     ∀ h₂ : Nat,
       (0 : Int) ≤ ((notifyRegisterDispatch okPlatform 0 h₂ (fun _ => 0)).1 : Int) ∧
       (notifyRegisterDispatch okPlatform 0 h₂ (fun _ => 0)).1 < 2 ^ 32) :=
  ⟨rfl, c4_valid_handler_success okPlatform 0 3 (fun _ => 0) rfl⟩

/-- Claim C5: frame condition — the binding writes only the caller's
out-slot; every other address of the caller-visible store is unchanged. -/
theorem c5_frame_condition (p : Platform) (a : Addr) (h : Nat) (σ : Store)
    (a₂ : Addr) (hne : a₂ ≠ a) :
    (notifyRegisterDispatch p a h σ).2 a₂ = σ a₂ := by
  show runActions σ (bindingActions p a h) a₂ = σ a₂
  simp [runActions, bindingActions, runAction, Function.update_noteq hne]

/-- Witness for C5 at a concrete platform, slots, handler and store. -/
theorem c5_witness :
    (1 : Addr) ≠ 0 ∧
    (notifyRegisterDispatch okPlatform 0 3 (fun _ => 0)).2 1 = 0 :=
  ⟨by decide, c5_frame_condition okPlatform 0 3 (fun _ => 0) 1 (by decide)⟩

/-- Claim C6: the header exposes exactly one operation of its own — the
notification-registration binding — and declares nothing else. -/
theorem c6_single_operation :
    headerOwnDecls.length = 1 ∧
    headerOwnDecls.all
      (fun d => d.name == "notifyRegisterDispatch"
        && d == notifyRegisterDispatch_decl) = true :=
  ⟨rfl, by decide⟩

/-- Inverting a deregistration step: the token was live and the step
filters it out of the registrations. -/
theorem step_deregister_inv {s s' : NCState} {t : Nat}
    (hs : Step s (Event.deregister t) s') :
    t ∈ s.registered.map Prod.fst ∧
      s' = { nextToken := s.nextToken
             registered := s.registered.filter (fun q => !(q.1 == t)) } := by
  cases hs
  rename_i hmem
  exact ⟨hmem, rfl⟩

/-- Claim C7: after a successful registration, deregistering with the
returned token stops further callback delivery — in every trace of the
notification centre, no delivery after the deregistration step contains
that token. -/
theorem c7_deregister_stops_delivery (es₁ es₂ : List Event) (t : Nat)
    (s' : NCState)
    (htr : Trace NCState.start (es₁ ++ Event.deregister t :: es₂) s')
    (toks : List Nat) (hdel : Event.deliver toks ∈ es₂) :
    t ∉ toks := by
  rcases trace_append htr with ⟨sm, h₁, h₂⟩
  cases h₂ with
  | cons hstep htail =>
      rcases step_deregister_inv hstep with ⟨hmem, hs₂⟩
      subst hs₂
      have hwm : NCWf sm :=
        trace_wf h₁ (fun q hq => absurd hq (List.not_mem_nil _))
      have habs :
          t ∉ (sm.registered.filter (fun q => !(q.1 == t))).map Prod.fst := by
        intro hm
        rcases List.mem_map.mp hm with ⟨q, hq, hqt⟩
        have hkeep := (List.mem_filter.mp hq).2
        simp [hqt] at hkeep
      have hlt : t < sm.nextToken := by
        rcases List.mem_map.mp hmem with ⟨q, hq, hqt⟩
        exact hqt ▸ hwm q hq
      exact trace_dead_token htail habs hlt toks hdel

/-- Witness for C7 on a concrete three-event trace: register handler 5
(token 0), deregister token 0, then a notification fires and is delivered
to nobody. -/
theorem c7_witness :
    Trace NCState.start
      [Event.register 0 5, Event.deregister 0, Event.deliver []]
      { nextToken := 1, registered := [] } ∧
    (0 : Nat) ∉ ([] : List Nat) := by
  have htr : Trace NCState.start
      [Event.register 0 5, Event.deregister 0, Event.deliver []]
      { nextToken := 1, registered := [] } :=
    Trace.cons (Step.register NCState.start 5)
      (Trace.cons (Step.deregister _ 0 (by decide))
        (Trace.cons (Step.deliver _) (Trace.nil _)))
  exact ⟨htr,
    c7_deregister_stops_delivery [Event.register 0 5] [Event.deliver []] 0
      { nextToken := 1, registered := [] } htr [] (by simp)⟩

/-- Claim C8: every call performs exactly one synchronous platform call,
takes no locks, and has no shared mutable state of its own: two calls with
distinct out-slots commute on the caller-visible store. -/
theorem c8_single_call_no_locks (p p₂ : Platform) (a a₂ : Addr) (h h₂ : Nat)
    (σ : Store) (hne : a ≠ a₂) :
    (bindingActions p a h).countP isPlatformCall = 1 ∧
    (bindingActions p a h).all (fun act => !(isLockAction act)) = true ∧
    runActions (runActions σ (bindingActions p a h)) (bindingActions p₂ a₂ h₂)
      = runActions (runActions σ (bindingActions p₂ a₂ h₂))
          (bindingActions p a h) := by
  refine ⟨rfl, rfl, ?_⟩
  show Function.update (Function.update σ a (p.register h).2) a₂ (p₂.register h₂).2
      = Function.update (Function.update σ a₂ (p₂.register h₂).2) a (p.register h).2
  exact Function.update_comm hne _ _ _

/-- Witness for C8 at concrete platforms, distinct slots and handlers. -/
theorem c8_witness :
    (0 : Addr) ≠ 1 ∧
    ((bindingActions okPlatform 0 3).countP isPlatformCall = 1 ∧
     (bindingActions okPlatform 0 3).all (fun act => !(isLockAction act)) = true ∧
     runActions (runActions (fun _ => 0) (bindingActions okPlatform 0 3))
         (bindingActions okPlatform 1 4)
       = runActions (runActions (fun _ => 0) (bindingActions okPlatform 1 4))
           (bindingActions okPlatform 0 3)) :=
  ⟨by decide,
   c8_single_call_no_locks okPlatform okPlatform 0 1 3 4 (fun _ => 0) (by decide)⟩

/-- Claim C9: the binding places no precondition on the handler argument:
for every handler bit pattern, zero included, its action sequence never
invokes or dereferences the handler, and the call is total, returning the
platform's status even for handler `0`. -/
theorem c9_no_handler_precondition (p : Platform) (a : Addr) (h : Nat)
    (σ : Store) :
    (bindingActions p a h).all (fun act => !(touchesHandler act)) = true ∧
    (bindingActions p a 0).all (fun act => !(touchesHandler act)) = true ∧
    (notifyRegisterDispatch p a 0 σ).1 = (p.register 0).1 :=
  ⟨rfl, rfl, rfl⟩

/-- Claim C10: the binding is deterministic relative to the platform: two
runs with equal inputs and identical platform behaviour return equal
statuses and leave equal stores. -/
theorem c10_deterministic (p₁ p₂ : Platform) (a₁ a₂ : Addr) (h₁ h₂ : Nat)
    (σ₁ σ₂ : Store) (hp : p₁ = p₂) (ha : a₁ = a₂) (hh : h₁ = h₂)
    (hσ : σ₁ = σ₂) :
    notifyRegisterDispatch p₁ a₁ h₁ σ₁ = notifyRegisterDispatch p₂ a₂ h₂ σ₂ := by
  subst hp
  subst ha
  subst hh
  subst hσ
  rfl

/-- Witness for C10 at a concrete platform, slot, handler and store. -/
theorem c10_witness :
    notifyRegisterDispatch okPlatform 0 3 (fun _ => 0)
      = notifyRegisterDispatch okPlatform 0 3 (fun _ => 0) :=
  c10_deterministic okPlatform okPlatform 0 0 3 3 (fun _ => 0) (fun _ => 0)
    rfl rfl rfl rfl

end NetworkChange
